import Mathlib

/-!
Verification development for the AutoPod intelligent-container repository.

This file gives a shallow embedding of the deployment orchestrator
(`webhook_handler.py`), the runtime manager (`podman_manager.py`) and the
persistence module (`database.py`), and proves properties about it.

Modelling conventions:
* External effects (git clone, `podman` subprocess calls, socket binds, the
  SQLite cursor) are passed in explicitly: `DeployEnv` carries the clone
  result and the port-bindability predicate, `Manager` carries the results
  of the manager's build / run / sync operations for one deployment, and the
  database is explicit state (`DbState`) threaded through the sync code.
* Machine strings are Lean `String`; Python string primitives (`in`,
  `replace`, `split`, `rstrip`, `lower`, `strip`, `startswith`, `isalnum`)
  are re-implemented structurally over `List Char` so that all definitions
  are executable and kernel-reducible.
* Print/logging calls and wall-clock timestamps are irrelevant to the claims;
  timestamps are an opaque `now : String` parameter.
-/

/-- Python `needle.startswith`-style prefix test on character lists:
`listStartsWith needle hay` is true iff `needle` is a prefix of `hay`. -/
def listStartsWith : List Char → List Char → Bool
  | [], _ => true
  | _ :: _, [] => false
  | a :: as, b :: bs => a == b && listStartsWith as bs

/-- Substring occurrence test on character lists: `listContains needle hay`
is true iff `needle` occurs contiguously in `hay` (Python `needle in hay`). -/
def listContains : List Char → List Char → Bool
  | needle, [] => needle.isEmpty
  | needle, h :: t => listStartsWith needle (h :: t) || listContains needle t

/-- Python `needle in hay` on strings. -/
def strContains (hay needle : String) : Bool :=
  listContains needle.toList hay.toList

/-- Python `hay.startswith needle` on strings. -/
def strStartsWith (hay needle : String) : Bool :=
  listStartsWith needle.toList hay.toList

/-- Fuel-bounded left-to-right non-overlapping replacement on character
lists, mirroring Python `str.replace` (replace every occurrence). The fuel
is always instantiated with the length of the input list, which suffices
because every step consumes at least one input character. -/
def listReplaceFuel (needle repl : List Char) : Nat → List Char → List Char
  | 0, l => l
  | Nat.succ _, [] => []
  | Nat.succ n, h :: t =>
    if listStartsWith needle (h :: t) && !needle.isEmpty then
      repl ++ listReplaceFuel needle repl n (List.drop (needle.length - 1) t)
    else
      h :: listReplaceFuel needle repl n t

/-- Python `s.replace(needle, repl)` (all occurrences). -/
def strReplace (s needle repl : String) : String :=
  String.mk (listReplaceFuel needle.toList repl.toList s.toList.length s.toList)

/-- Python `s.rstrip('/')`: drop trailing `/` characters. -/
def rstripSlash (s : String) : String :=
  String.mk ((s.toList.reverse.dropWhile (fun c => c == '/')).reverse)

/-- Python `s.split(sep)` for a single-character separator, keeping empty
fields, on character lists. -/
def splitOnChar (sep : Char) : List Char → List (List Char)
  | [] => [[]]
  | h :: t =>
    let r := splitOnChar sep t
    if h == sep then [] :: r
    else
      match r with
      | [] => [[h]]
      | g :: gs => (h :: g) :: gs

/-- ASCII lower-casing of one character (Python `str.lower` restricted to
the ASCII identifiers this program manipulates). -/
def lowerChar (c : Char) : Char :=
  if 'A' ≤ c && c ≤ 'Z' then Char.ofNat (c.toNat + 32) else c

/-- Python `s.lower()` (ASCII fragment). -/
def strLower (s : String) : String :=
  String.mk (s.toList.map lowerChar)

/-- Whitespace class of Python `str.strip()` (ASCII fragment: tab, LF, VT,
FF, CR, space). -/
def isSpaceChar (c : Char) : Bool :=
  c.toNat == 9 || c.toNat == 10 || c.toNat == 11 || c.toNat == 12 ||
  c.toNat == 13 || c.toNat == 32

/-- Python `s.strip()`. -/
def strTrim (s : String) : String :=
  String.mk (((s.toList.dropWhile isSpaceChar).reverse.dropWhile isSpaceChar).reverse)

/-- Python `s[:12]` (used for short container ids). -/
def strTake (s : String) (n : Nat) : String :=
  String.mk (s.toList.take n)

/-- Status normalization performed inside `PodmanManager.sync_with_db`
(`podman_manager.py` lines 85-96): the "292 years ago" clock-bug artifact is
special-cased first (decided by the raw `State` field), then the substrings
"Exited", "Up", "Created" are recognized in that order; anything else passes
through unchanged. -/
def normalize_status (state status : String) : String :=
  if strContains status "292 years ago" then
    (if state == "running" then "Running" else "Exited")
  else if strContains status "Exited" then "Exited"
  else if strContains status "Up" then "Running"
  else if strContains status "Created" then "Created"
  else status

/-- Embedding of `extract_repo_name_from_url` (`webhook_handler.py` lines
142-173). The `try` body is total (pure string manipulation), so the
`except` fallback is unreachable in the embedding. The function is given
the `Option String` the caller holds; Python's `if not repo_url` covers
both `None` and the empty string. -/
def extract_repo_name_from_url (repo_url : Option String) : String :=
  match repo_url with
  | none => "webhook-app"
  | some u =>
    if u == "" then "webhook-app"
    else
      let clean_url := strReplace (rstripSlash u) ".git" ""
      if strContains clean_url "github.com" then
        let parts := (splitOnChar '/' clean_url.toList).map String.mk
        let repo_name :=
          if parts.length ≥ 5 then parts.getD 4 ""
          else if parts.length ≥ 2 then parts.getLastD ""
          else "webhook-app"
        if repo_name != "" && repo_name != "webhook-app" then
          let r1 := strReplace (strReplace (strLower repo_name) " " "-") "_" "-"
          String.mk (r1.toList.filter (fun c => c.isAlphanum || c == '-'))
        else "webhook-app"
      else "webhook-app"

/-- The `repository` object of a GitHub-style webhook payload, as read by
`handle_webhook`: `clone_url` and `name` are looked up with `.get`, so each
is optional (`none` models an absent or null key). -/
structure RepoInfo where
  clone_url : Option String
  name : Option String
deriving DecidableEq

/-- A webhook payload as `handle_webhook` observes it: either JSON null
(`request.get_json()` returned nothing) or a JSON object with an optional
`repository` object, a `test` key flag, and a count of any other keys
(which only matters for Python truthiness of the dict). -/
inductive Payload
  | null
  | dict (repository : Option RepoInfo) (hasTest : Bool) (otherKeys : Nat)
deriving DecidableEq

/-- Truth of `'repository' in payload` guarded by payload truthiness (a
dict with a `repository` key is necessarily non-empty, hence truthy). -/
def has_repository : Payload → Bool
  | Payload.null => false
  | Payload.dict r _ _ => r.isSome

/-- Truth of `'test' in payload` (for a truthy payload the key makes the
dict non-empty, hence truthy). -/
def has_test_marker : Payload → Bool
  | Payload.null => false
  | Payload.dict _ t _ => t

/-- Result of the payload-classification prologue of `handle_webhook`
(lines 26-37): either the structured invalid-payload rejection, or the
accepted case carrying the optional clone URL and the initial repo name. -/
inductive Classified
  | invalid
  | accepted (repo_url : Option String) (repo_name : String)
deriving DecidableEq

/-- Classification branch of `handle_webhook` (lines 26-37): a payload with
a `repository` object yields its `clone_url` and `name` (default
`"webhook-app"`); otherwise a payload with a `test` key yields the fixed
name `"test-app"`; otherwise the payload is rejected. -/
def classify_payload : Payload → Classified
  | Payload.null => Classified.invalid
  | Payload.dict r t _ =>
    match r with
    | some info => Classified.accepted info.clone_url (info.name.getD "webhook-app")
    | none => if t then Classified.accepted none "test-app" else Classified.invalid

/-- Python truthiness of the optional `repo_url` string (`if repo_url:`). -/
def urlTruthy : Option String → Bool
  | none => false
  | some u => u != ""

/-- Repo-name resolution of `handle_webhook` lines 39-44: when a truthy
clone URL is present, the name extracted from the URL overrides the
payload-supplied name unless extraction returned empty or the default. -/
def resolve_repo_name (repo_url : Option String) (name0 : String) : String :=
  if urlTruthy repo_url then
    let e := extract_repo_name_from_url repo_url
    if e != "" && e != "webhook-app" then e else name0
  else name0

/-- The repository name a deployment derives from a payload (`none` when
the payload is rejected before any name is derived). -/
def derived_repo_name (p : Payload) : Option String :=
  match classify_payload p with
  | Classified.invalid => none
  | Classified.accepted u n0 => some (resolve_repo_name u n0)

/-- Image-name slug applied at `webhook_handler.py` line 78:
`repo_name.lower().replace(' ', '-')`. -/
def slugify (name : String) : String :=
  strReplace (strLower name) " " "-"

/-- Search loop of `find_available_port` (`webhook_handler.py` lines
342-348): try `fuel` consecutive ports starting at `p`; `free` is the
oracle for "the bind at 127.0.0.1:port succeeded". -/
def find_port_loop (free : Nat → Bool) : Nat → Nat → Option Nat
  | _, 0 => none
  | p, Nat.succ n => if free p then some p else find_port_loop free (p + 1) n

/-- Embedding of `find_available_port` (`webhook_handler.py` lines
336-352): scan `start_port .. start_port + 50` (51 candidates) for the
first bindable port; if none is bindable, return `start_port` itself. -/
def find_available_port (free : Nat → Bool) (start_port : Nat) : Nat :=
  match find_port_loop free start_port 51 with
  | some p => p
  | none => start_port

/-- Result of one execution of an external command, as observed through
`subprocess.run(..., check=True)`: exit 0 with captured stdout, a non-zero
exit (`CalledProcessError` with captured stderr), or some other exception
(e.g. the executable is missing). -/
inductive CmdResult
  | ok (stdout : String)
  | failed (stderr : String)
  | raised
deriving DecidableEq

/-- Embedding of `PodmanManager._run_cmd` (`podman_manager.py` lines
12-19): a `CalledProcessError` (non-zero exit) is caught, logged and
converted to the empty string; any other exception propagates
(`Except.error`). -/
def runCommand : CmdResult → Except Unit String
  | CmdResult.ok s => Except.ok (strTrim s)
  | CmdResult.failed _ => Except.ok ""
  | CmdResult.raised => Except.error ()

/-- Embedding of `PodmanManager.run_container` (`podman_manager.py` lines
370-391), applied to the result of the underlying `podman run` command: the
command is issued through `_run_cmd` and the method returns `True` unless
an exception escapes `_run_cmd` (in which case the `except` branch returns
`False`). Port mappings and env vars only alter the command line, not the
control flow. -/
def run_container (r : CmdResult) : Bool :=
  match runCommand r with
  | Except.ok _ => true
  | Except.error _ => false

/-- The `PodmanManager` capabilities `handle_webhook` consumes, fixed for
one deployment: the result of `build_image`, the result of the underlying
`podman run` command, and whether `sync_with_db` raises (with the exception
text used in the orchestrator's `str(e)`). `stop_container` /
`remove_container` return values are discarded by `handle_webhook`
(lines 95-96), so they do not appear. -/
structure Manager where
  buildOk : Bool
  runCmd : CmdResult
  syncRaises : Bool
  syncErrorMsg : String

/-- The external world of one deployment: whether the `git clone` would
succeed, the files at the root of the cloned tree when it does, and the
port-bindability oracle used by `find_available_port`. -/
structure DeployEnv where
  cloneOk : Bool
  clonedFiles : List String
  free : Nat → Bool

/-- The structured outcome dictionary returned by `handle_webhook`. Keys
absent from the error-path dictionaries are `none`. -/
structure Outcome where
  status : String
  message : String
  container_name : Option String := none
  image_name : Option String := none
  port : Option Nat := none
  access_url : Option String := none
  repo_name : Option String := none
deriving DecidableEq

/-- Record of the externally visible actions one `handle_webhook` call
performed, used to state the mutation-freedom and cleanup claims. -/
structure Trace where
  tempDirCreated : Bool := false
  tempDirRemoved : Bool := false
  cloneAttempted : Bool := false
  demoCreated : Bool := false
  buildCalled : Bool := false
  stopCalled : Bool := false
  removeCalled : Bool := false
  runCalled : Bool := false
  syncCalled : Bool := false
deriving DecidableEq

/-- Files written by `create_demo_project` (`webhook_handler.py` lines
206-334) into the working directory: the build descriptor under both
accepted filenames plus the demo page. -/
def demo_files : List String := ["Containerfile", "Dockerfile", "index.html"]

/-- Whether `handle_webhook` attempts a clone (line 54): a truthy clone URL
that starts with `https://github.com/`. -/
def clone_attempted (repo_url : Option String) : Bool :=
  urlTruthy repo_url && strStartsWith (repo_url.getD "") "https://github.com/"

/-- Source-materialization phase of `handle_webhook` (lines 52-75): returns
the files present in the working directory afterwards and whether
`create_demo_project` ran. A failed clone leaves a fresh directory that the
demo project then populates; a successful clone lacking both build
descriptors gets the demo files written on top of the cloned tree. -/
def materialize (cloneOk : Bool) (clonedFiles : List String)
    (repo_url : Option String) : List String × Bool :=
  if clone_attempted repo_url then
    if !cloneOk then (demo_files, true)
    else if ¬ ("Dockerfile" ∈ clonedFiles) ∧ ¬ ("Containerfile" ∈ clonedFiles) then
      (clonedFiles ++ demo_files, true)
    else (clonedFiles, false)
  else (demo_files, true)

/-- Body of `handle_webhook` after the payload has been accepted
(`webhook_handler.py` lines 39-139): derive the repo name, create the temp
working directory, materialize source, then build → stop/remove → allocate
port → run → sync, cleaning up and producing the structured outcome. The
early `return`s inside the `try` block (build failure line 89, run failure
line 109) do not execute `shutil.rmtree`; only the success path (line 120)
and the `except` handler (line 138) do. An exception raised by
`sync_with_db` is caught by the `except` at line 133. -/
def deploy_accepted (mgr : Manager) (env : DeployEnv)
    (repo_url : Option String) (name0 : String) : Outcome × Trace :=
  let repo_name := resolve_repo_name repo_url name0
  let fd := materialize env.cloneOk env.clonedFiles repo_url
  let t1 : Trace :=
    { tempDirCreated := true
      cloneAttempted := clone_attempted repo_url
      demoCreated := fd.2 }
  let image_name := "autopod-" ++ slugify repo_name
  let container_name := image_name ++ "-container"
  let t2 := { t1 with buildCalled := true }
  if mgr.buildOk = false then
    ({ status := "error", message := "Image build failed for " ++ image_name }, t2)
  else
    let t3 := { t2 with stopCalled := true, removeCalled := true }
    let port := find_available_port env.free 8081
    let run_success := run_container mgr.runCmd
    let t4 := { t3 with runCalled := true }
    if run_success = false then
      ({ status := "error", message := "Failed to run container " ++ container_name }, t4)
    else
      let t5 := { t4 with syncCalled := true }
      if mgr.syncRaises then
        ({ status := "error",
           message := "Webhook processing failed: " ++ mgr.syncErrorMsg },
         { t5 with tempDirRemoved := true })
      else
        ({ status := "success",
           message := "Container " ++ container_name ++
             " deployed successfully on port " ++ toString port,
           container_name := some container_name,
           image_name := some image_name,
           port := some port,
           access_url := some ("http://127.0.0.1:" ++ toString port),
           repo_name := some repo_name },
         { t5 with tempDirRemoved := true })

/-- Embedding of `handle_webhook` (`webhook_handler.py` lines 12-139):
classify the payload, rejecting it with a structured error before any
filesystem or runtime action, else run the deployment pipeline. -/
def handle_webhook (mgr : Manager) (env : DeployEnv) (p : Payload) :
    Outcome × Trace :=
  match classify_payload p with
  | Classified.invalid =>
    ({ status := "error",
       message :=
         "Invalid webhook payload: missing \x27repository\x27 or \x27test\x27 field" },
     {})
  | Classified.accepted u n0 => deploy_accepted mgr env u n0

/-- One entry of the `podman ps -a --format json` listing, as read by
`sync_with_db` via `.get` with defaults: `Names` (list, possibly absent or
empty), `Status`, `Id` and `State` (each possibly absent). -/
structure PsContainer where
  names : Option (List String)
  status : Option String
  id : Option String
  state : Option String
deriving DecidableEq

/-- Row of the persisted `containers` mirror table (the columns
`sync_with_db` inserts; the autoincrement id is irrelevant to the claims). -/
structure ContainerRow where
  container_name : String
  status : String
  created_at : String
deriving DecidableEq

/-- Row of the persisted `logs` mirror table (columns inserted by
`sync_with_db`). -/
structure LogRow where
  container_name : String
  log : String
  timestamp : String
deriving DecidableEq

/-- The two mirror tables owned by the state reconciler. -/
structure DbState where
  containers : List ContainerRow
  logs : List LogRow
deriving DecidableEq

/-- Container-name extraction of `sync_with_db` (`podman_manager.py` line
76): the first element of a truthy `Names` list, else `"unknown"`. (The
subsequent `isinstance(..., list)` re-check at lines 82-83 is dead code for
list-valued `Names` and is absorbed here.) -/
def derived_name (c : PsContainer) : String :=
  match c.names with
  | some (h :: _) => h
  | _ => "unknown"

/-- The `containers` row inserted for one listed container
(`podman_manager.py` lines 76-108): derived name, normalized status, and
the sync-time timestamp. -/
def row_of (now : String) (c : PsContainer) : ContainerRow :=
  { container_name := derived_name c
    status := normalize_status (c.state.getD "unknown") (c.status.getD "unknown")
    created_at := now }

/-- The `logs` rows inserted for one listed container (`podman_manager.py`
lines 110-146): for raw state `"running"`, the fetched tail is split into
lines and each non-empty stripped line becomes a row; otherwise a single
synthetic placeholder row. `getLogs` abstracts `self.get_logs`, which
itself never raises (it catches every exception and returns an error
string), so the inner `except` branch is unreachable in the embedding. -/
def log_rows_of (now : String) (getLogs : String → String) (c : PsContainer) :
    List LogRow :=
  let name := derived_name c
  let st := normalize_status (c.state.getD "unknown") (c.status.getD "unknown")
  if c.state.getD "unknown" == "running" then
    let text := getLogs (strTake (c.id.getD "") 12)
    if text != "" then
      ((splitOnChar '\n' text.toList).map String.mk).filterMap
        (fun line => if strTrim line != "" then
            some ⟨name, strTrim line, now⟩ else none)
    else []
  else
    [⟨name, "Container is " ++ st ++ ". Start container to see logs.", now⟩]

/-- Effect of one iteration of the `for container in containers` loop of
`sync_with_db` on the mirror tables: append the container row and its log
rows. With list-shaped `Names` and string-shaped fields the two `except`
clauses of the loop body cannot trigger, so no container is skipped. -/
def sync_step (now : String) (getLogs : String → String) (db : DbState)
    (c : PsContainer) : DbState :=
  { containers := db.containers ++ [row_of now c]
    logs := db.logs ++ log_rows_of now getLogs c }

/-- The database-rewrite body of `sync_with_db` (`podman_manager.py` lines
69-152), i.e. the code under `with get_db_cursor() as cur:` — the part that
runs once the cursor has been obtained: `DELETE FROM containers`, `DELETE
FROM logs`, then one insertion pass per listed container. -/
def sync_body (now : String) (getLogs : String → String)
    (listing : List PsContainer) (_db : DbState) : DbState :=
  listing.foldl (sync_step now getLogs) { containers := [], logs := [] }

/-- The names defined at module scope by `database.py` (lines 1-154): its
imports and its definitions. This is the namespace `from database import
get_db_cursor` resolves against. -/
def database_module_names : List String :=
  ["os", "sqlite3", "List", "Dict", "DB_FILE", "_connect", "_get_columns",
   "_ensure_tables_and_columns", "init_db", "get_container_status",
   "get_container_logs", "close_db_connection"]

/-- Why `sync_with_db` fails: `from database import get_db_cursor` raises
`ImportError` when the module defines no such name. -/
inductive SyncError
  | importError
deriving DecidableEq

/-- Embedding of `PodmanManager.sync_with_db` (`podman_manager.py` lines
62-152): `get_containers` has already produced `listing` (it touches no
database state); then the body imports `get_db_cursor` from the database
module — if the name is missing the `ImportError` propagates and the mirror
tables are untouched; otherwise the rewrite body runs. -/
def sync_with_db (now : String) (getLogs : String → String)
    (listing : List PsContainer) (db : DbState) : DbState × Option SyncError :=
  if database_module_names.contains "get_db_cursor" then
    (sync_body now getLogs listing db, none)
  else
    (db, some SyncError.importError)

/-! Helper lemmas (shared between claim theorems). -/

theorem find_port_loop_some_spec (free : Nat → Bool) :
    ∀ (n p r : Nat), find_port_loop free p n = some r →
      p ≤ r ∧ r < p + n ∧ free r = true ∧
      ∀ q, p ≤ q → q < r → free q = false := by
  intro n
  induction n with
  | zero => intro p r h; simp [find_port_loop] at h
  | succ n ih =>
    intro p r h
    rw [find_port_loop] at h
    split at h
    · next hf =>
      cases h
      exact ⟨Nat.le_refl _, by omega, hf, fun q hq hqr => absurd hqr (by omega)⟩
    · next hf =>
      obtain ⟨h1, h2, h3, h4⟩ := ih (p + 1) r h
      refine ⟨by omega, by omega, h3, ?_⟩
      intro q hq hqr
      rcases Nat.eq_or_lt_of_le hq with rfl | hlt
      · exact Bool.not_eq_true _ ▸ Bool.of_not_eq_true hf
      · exact h4 q (by omega) hqr

theorem find_port_loop_none_spec (free : Nat → Bool) :
    ∀ (n p : Nat), find_port_loop free p n = none →
      ∀ q, p ≤ q → q < p + n → free q = false := by
  intro n
  induction n with
  | zero => intro p _ q hq hq2; omega
  | succ n ih =>
    intro p h q hq hq2
    rw [find_port_loop] at h
    split at h
    · exact absurd h (by simp)
    · next hf =>
      rcases Nat.eq_or_lt_of_le hq with rfl | hlt
      · exact Bool.of_not_eq_true hf
      · exact ih (p + 1) h q (by omega) (by omega)

theorem find_available_port_in_range (free : Nat → Bool) (start : Nat) :
    start ≤ find_available_port free start ∧
    find_available_port free start ≤ start + 50 := by
  unfold find_available_port
  cases hl : find_port_loop free start 51 with
  | none => dsimp only; omega
  | some r =>
    dsimp only
    obtain ⟨h1, h2, _, _⟩ := find_port_loop_some_spec free 51 start r hl
    omega

theorem find_available_port_below_busy (free : Nat → Bool) (start : Nat) :
    ∀ q, start ≤ q → q < find_available_port free start → free q = false := by
  intro q hq hql
  unfold find_available_port at hql
  cases hl : find_port_loop free start 51 with
  | none => rw [hl] at hql; dsimp only at hql; omega
  | some r =>
    rw [hl] at hql
    dsimp only at hql
    obtain ⟨_, _, _, h4⟩ := find_port_loop_some_spec free 51 start r hl
    exact h4 q hq hql

theorem find_available_port_free_or_fallback (free : Nat → Bool) (start : Nat) :
    free (find_available_port free start) = true ∨
    find_available_port free start = start := by
  unfold find_available_port
  cases hl : find_port_loop free start 51 with
  | none => exact Or.inr rfl
  | some r =>
    obtain ⟨_, _, h3, _⟩ := find_port_loop_some_spec free 51 start r hl
    exact Or.inl h3

theorem sync_foldl_containers (now : String) (getLogs : String → String) :
    ∀ (listing : List PsContainer) (acc : DbState),
      (listing.foldl (sync_step now getLogs) acc).containers =
        acc.containers ++ listing.map (row_of now) := by
  intro listing
  induction listing with
  | nil => intro acc; simp
  | cons c t ih =>
    intro acc
    rw [List.foldl_cons, ih]
    simp [sync_step]

theorem deploy_accepted_success_fields (mgr : Manager) (env : DeployEnv)
    (u : Option String) (n0 : String)
    (h : (deploy_accepted mgr env u n0).1.status = "success") :
    (deploy_accepted mgr env u n0).1 =
      { status := "success",
        message := "Container " ++
          ("autopod-" ++ slugify (resolve_repo_name u n0) ++ "-container") ++
          " deployed successfully on port " ++
          toString (find_available_port env.free 8081),
        container_name :=
          some ("autopod-" ++ slugify (resolve_repo_name u n0) ++ "-container"),
        image_name := some ("autopod-" ++ slugify (resolve_repo_name u n0)),
        port := some (find_available_port env.free 8081),
        access_url :=
          some ("http://127.0.0.1:" ++
            toString (find_available_port env.free 8081)),
        repo_name := some (resolve_repo_name u n0) } := by
  by_cases hb : mgr.buildOk = false
  · exfalso
    simp [deploy_accepted, hb] at h
  · by_cases hr : run_container mgr.runCmd = false
    · exfalso
      simp [deploy_accepted, hb, hr] at h
    · by_cases hs : mgr.syncRaises = true
      · exfalso
        simp [deploy_accepted, hb, hr, hs] at h
      · simp [deploy_accepted, hb, hr, hs]

theorem handle_webhook_success_fields (mgr : Manager) (env : DeployEnv)
    (p : Payload)
    (h : (handle_webhook mgr env p).1.status = "success") :
    (handle_webhook mgr env p).1.port =
      some (find_available_port env.free 8081) ∧
    (handle_webhook mgr env p).1.access_url =
      some ("http://127.0.0.1:" ++
        toString (find_available_port env.free 8081)) ∧
    (handle_webhook mgr env p).1.image_name =
      (derived_repo_name p).map (fun rn => "autopod-" ++ slugify rn) ∧
    (handle_webhook mgr env p).1.container_name =
      (derived_repo_name p).map
        (fun rn => "autopod-" ++ slugify rn ++ "-container") ∧
    (handle_webhook mgr env p).1.repo_name = derived_repo_name p := by
  cases hc : classify_payload p with
  | invalid =>
    exfalso
    unfold handle_webhook at h
    rw [hc] at h
    simp at h
  | accepted u n0 =>
    have hd : derived_repo_name p = some (resolve_repo_name u n0) := by
      unfold derived_repo_name
      rw [hc]
    unfold handle_webhook at h ⊢
    rw [hc] at h ⊢
    dsimp only at h ⊢
    rw [hd]
    rw [deploy_accepted_success_fields mgr env u n0 h]
    simp

/-! Claim theorems. -/

/-- C1 counterexample: with a payload, build and run all succeeding and the
resync step raising (as the repository's `sync_with_db` always does), the
outcome of `handle_webhook` is `"error"`, not `"success"`: the exception is
caught by the orchestrator's outer handler (`webhook_handler.py` line 133),
which returns an error outcome, so a resync failure after a successful
container start does change the deployment outcome away from success. -/
theorem C1_counterexample :
    (Manager.buildOk ⟨true, CmdResult.ok "cid", true, "cannot import name"⟩ = true) ∧
    run_container (Manager.runCmd ⟨true, CmdResult.ok "cid", true, "cannot import name"⟩) = true ∧
    (Manager.syncRaises ⟨true, CmdResult.ok "cid", true, "cannot import name"⟩ = true) ∧
    (handle_webhook ⟨true, CmdResult.ok "cid", true, "cannot import name"⟩
        ⟨true, [], fun _ => true⟩ (Payload.dict none true 0)).1.status = "error" ∧
    ¬ (handle_webhook ⟨true, CmdResult.ok "cid", true, "cannot import name"⟩
        ⟨true, [], fun _ => true⟩ (Payload.dict none true 0)).1.status = "success" := by
  refine ⟨rfl, rfl, rfl, by decide, by decide⟩

/-- C1 (amended): if the resync step raises after the container has been
started successfully, the exception propagates to the orchestrator's outer
`except` handler, which removes the temporary directory and returns an
ERROR outcome whose message is the generic webhook-processing failure —
resync failure is fatal to the reported deployment outcome. -/
theorem C1_amended_resync_failure_is_fatal (mgr : Manager) (env : DeployEnv)
    (p : Payload) (u : Option String) (n0 : String)
    (hc : classify_payload p = Classified.accepted u n0)
    (hb : mgr.buildOk = true)
    (hr : run_container mgr.runCmd = true)
    (hs : mgr.syncRaises = true) :
    (handle_webhook mgr env p).1.status = "error" ∧
    (handle_webhook mgr env p).1.message =
      "Webhook processing failed: " ++ mgr.syncErrorMsg ∧
    (handle_webhook mgr env p).2.tempDirRemoved = true := by
  unfold handle_webhook
  rw [hc]
  dsimp only
  simp [deploy_accepted, hb, hr, hs]

/-- C1 witness: the amended theorem instantiated at a concrete deployment
whose build and run succeed and whose resync raises. -/
theorem C1_witness :
    (handle_webhook ⟨true, CmdResult.ok "cid", true, "boom"⟩
        ⟨true, [], fun _ => true⟩ (Payload.dict none true 0)).1.status = "error" ∧
    (handle_webhook ⟨true, CmdResult.ok "cid", true, "boom"⟩
        ⟨true, [], fun _ => true⟩ (Payload.dict none true 0)).1.message =
      "Webhook processing failed: " ++ "boom" ∧
    (handle_webhook ⟨true, CmdResult.ok "cid", true, "boom"⟩
        ⟨true, [], fun _ => true⟩ (Payload.dict none true 0)).2.tempDirRemoved = true := by
  have h := C1_amended_resync_failure_is_fatal
    ⟨true, CmdResult.ok "cid", true, "boom"⟩ ⟨true, [], fun _ => true⟩
    (Payload.dict none true 0) none "test-app" rfl rfl rfl rfl
  exact h

/-- C2: evaluation of `handle_webhook` at the failing input — a payload
whose build step fails. The outcome is the build-failure error and neither
stop/remove, run nor resync is invoked, as the claim says; but the early
`return` at `webhook_handler.py` line 89 executes no `shutil.rmtree`, so
the temporary working directory created at line 47 is NOT removed before
the function returns, contradicting the claim's cleanup conjunct. -/
theorem C2_build_failure_eval :
    (handle_webhook ⟨false, CmdResult.ok "", false, ""⟩
        ⟨true, [], fun _ => true⟩ (Payload.dict none true 0)).1.status = "error" ∧
    (handle_webhook ⟨false, CmdResult.ok "", false, ""⟩
        ⟨true, [], fun _ => true⟩ (Payload.dict none true 0)).1.message =
      "Image build failed for autopod-test-app" ∧
    strContains
      (handle_webhook ⟨false, CmdResult.ok "", false, ""⟩
        ⟨true, [], fun _ => true⟩ (Payload.dict none true 0)).1.message
      "build failed" = true ∧
    (handle_webhook ⟨false, CmdResult.ok "", false, ""⟩
        ⟨true, [], fun _ => true⟩ (Payload.dict none true 0)).2.buildCalled = true ∧
    (handle_webhook ⟨false, CmdResult.ok "", false, ""⟩
        ⟨true, [], fun _ => true⟩ (Payload.dict none true 0)).2.runCalled = false ∧
    (handle_webhook ⟨false, CmdResult.ok "", false, ""⟩
        ⟨true, [], fun _ => true⟩ (Payload.dict none true 0)).2.syncCalled = false ∧
    (handle_webhook ⟨false, CmdResult.ok "", false, ""⟩
        ⟨true, [], fun _ => true⟩ (Payload.dict none true 0)).2.tempDirCreated = true ∧
    (handle_webhook ⟨false, CmdResult.ok "", false, ""⟩
        ⟨true, [], fun _ => true⟩ (Payload.dict none true 0)).2.tempDirRemoved = false := by
  refine ⟨by decide, by decide, by decide, by decide, by decide, by decide, by decide, by decide⟩

/-- C3: evaluation at the failing input — the underlying `podman run`
command exits non-zero. `_run_cmd` catches the `CalledProcessError` and
returns the empty string, so `run_container` returns `True` and the
orchestrator proceeds as if the container started: with the resync step not
raising, `handle_webhook` even reports `"success"`; and in the deployed
program (resync raising) the outcome message is the generic webhook
failure, never the run-failure message the claim requires. -/
theorem C3_run_failure_swallowed :
    runCommand (CmdResult.failed "exit status 125") = Except.ok "" ∧
    run_container (CmdResult.failed "exit status 125") = true ∧
    (handle_webhook ⟨true, CmdResult.failed "exit status 125", false, ""⟩
        ⟨true, [], fun _ => true⟩ (Payload.dict none true 0)).1.status = "success" ∧
    ¬ (handle_webhook ⟨true, CmdResult.failed "exit status 125", true, "import failed"⟩
        ⟨true, [], fun _ => true⟩ (Payload.dict none true 0)).1.message =
      "Failed to run container autopod-test-app-container" := by
  refine ⟨rfl, rfl, by decide, by decide⟩

/-- C4: a payload containing neither a `repository` descriptor nor a `test`
marker (including the null payload and the empty dict) is rejected before
the temporary directory is created: the outcome is an error and the action
trace is empty — no temp dir, no demo files, no clone, and no build, stop,
remove, run or resync call. -/
theorem C4_invalid_payload_no_mutation (mgr : Manager) (env : DeployEnv)
    (p : Payload)
    (hrepo : has_repository p = false) (htest : has_test_marker p = false) :
    (handle_webhook mgr env p).1.status = "error" ∧
    (handle_webhook mgr env p).2 = ({} : Trace) := by
  have hc : classify_payload p = Classified.invalid := by
    cases p with
    | null => rfl
    | dict r t o =>
      cases r with
      | some info => simp [has_repository] at hrepo
      | none =>
        simp only [has_test_marker] at htest
        simp [classify_payload, htest]
  unfold handle_webhook
  rw [hc]
  exact ⟨rfl, rfl⟩

/-- C4 witness: the theorem applied to the null payload. -/
theorem C4_witness :
    has_repository Payload.null = false ∧
    has_test_marker Payload.null = false ∧
    (handle_webhook ⟨true, CmdResult.ok "", false, ""⟩
        ⟨true, [], fun _ => true⟩ Payload.null).1.status = "error" ∧
    (handle_webhook ⟨true, CmdResult.ok "", false, ""⟩
        ⟨true, [], fun _ => true⟩ Payload.null).2 = ({} : Trace) := by
  have h := C4_invalid_payload_no_mutation ⟨true, CmdResult.ok "", false, ""⟩
    ⟨true, [], fun _ => true⟩ Payload.null rfl rfl
  exact ⟨rfl, rfl, h.1, h.2⟩

/-- C5 counterexample: a gateway listing in which two containers both lack
a usable `Names` field (one absent, one the empty list) makes
`sync_with_db`'s rewrite body insert two rows that share the container
name `"unknown"`, so the mirror table does NOT have at most one row per
`container_name` after the sync (the stale row is gone, but the name key is
not unique). -/
theorem C5_counterexample :
    ((sync_body "t0" (fun _ => "")
        [⟨none, some "Exited (0) 2 days ago", some "aaa", some "exited"⟩,
         ⟨some [], none, none, none⟩]
        ⟨[⟨"stale", "Running", "t-1"⟩], [⟨"stale", "old line", "t-1"⟩]⟩).containers.map
      (fun r => r.container_name)) = ["unknown", "unknown"] ∧
    ¬ ((sync_body "t0" (fun _ => "")
        [⟨none, some "Exited (0) 2 days ago", some "aaa", some "exited"⟩,
         ⟨some [], none, none, none⟩]
        ⟨[⟨"stale", "Running", "t-1"⟩], [⟨"stale", "old line", "t-1"⟩]⟩).containers.map
      (fun r => r.container_name)).Nodup := by
  refine ⟨by decide, by decide⟩

/-- C5 (amended): after a completed rewrite body of `sync_with_db`, the
containers mirror table equals the gateway listing mapped row-for-row
(one row per listed container, names and normalized statuses as derived,
no row surviving from any previous sync — full delete-then-insert); the
"at most one row per container_name" part holds provided the names derived
from the listing are pairwise distinct (duplicates such as two name-less
containers both mapping to "unknown" break it). -/
theorem C5_amended_full_replace (now : String) (getLogs : String → String)
    (listing : List PsContainer) (db : DbState) :
    (sync_body now getLogs listing db).containers = listing.map (row_of now) ∧
    ((listing.map derived_name).Nodup →
      ((sync_body now getLogs listing db).containers.map
        (fun r => r.container_name)).Nodup) := by
  have hmain : (sync_body now getLogs listing db).containers =
      listing.map (row_of now) := by
    unfold sync_body
    rw [sync_foldl_containers]
    simp
  refine ⟨hmain, ?_⟩
  intro hnd
  rw [hmain, List.map_map]
  have hfun : ((fun r : ContainerRow => r.container_name) ∘ row_of now) =
      derived_name := by
    funext c
    rfl
  rw [hfun]
  exact hnd

/-- C5 witness: the amended theorem applied to a two-container listing with
distinct names, starting from a non-empty previous mirror state. -/
theorem C5_witness :
    (sync_body "t0" (fun _ => "")
        [⟨some ["web1"], some "Up 3 hours", some "aaa", some "running"⟩,
         ⟨some ["web2"], some "Exited (0) 2 days ago", some "bbb", some "exited"⟩]
        ⟨[⟨"stale", "Running", "t-1"⟩], []⟩).containers =
      [⟨"web1", "Running", "t0"⟩, ⟨"web2", "Exited", "t0"⟩] ∧
    ((sync_body "t0" (fun _ => "")
        [⟨some ["web1"], some "Up 3 hours", some "aaa", some "running"⟩,
         ⟨some ["web2"], some "Exited (0) 2 days ago", some "bbb", some "exited"⟩]
        ⟨[⟨"stale", "Running", "t-1"⟩], []⟩).containers.map
      (fun r => r.container_name)).Nodup := by
  have h := C5_amended_full_replace "t0" (fun _ => "")
    [⟨some ["web1"], some "Up 3 hours", some "aaa", some "running"⟩,
     ⟨some ["web2"], some "Exited (0) 2 days ago", some "bbb", some "exited"⟩]
    ⟨[⟨"stale", "Running", "t-1"⟩], []⟩
  refine ⟨?_, h.2 (by decide)⟩
  rw [h.1]
  decide

/-- C6 counterexample: the status string "Up 292 years ago" contains "Up",
yet with raw state "exited" the normalization maps it to "Exited", not
"Running" — the claim's universal "any status containing Up maps to
Running" fails because the clock-bug branch is checked first. -/
theorem C6_counterexample :
    strContains "Up 292 years ago" "Up" = true ∧
    normalize_status "exited" "Up 292 years ago" = "Exited" ∧
    ¬ ("Exited" : String) = "Running" := by
  refine ⟨by decide, by decide, by decide⟩

/-- C6 (amended): the normalization is a first-match chain — the
"292 years ago" clock-bug artifact is checked first (Running when the raw
state is "running", else Exited), then the substrings "Exited", "Up",
"Created" in that order, and a string matching none of them passes through
unchanged; in particular "Up 3 hours" maps to Running and
"Exited (0) 2 days ago" maps to Exited for every raw state. -/
theorem C6_amended_first_match (state status : String) :
    (strContains status "292 years ago" = true →
      normalize_status state status =
        (if state == "running" then "Running" else "Exited")) ∧
    (strContains status "292 years ago" = false →
      strContains status "Exited" = true →
      normalize_status state status = "Exited") ∧
    (strContains status "292 years ago" = false →
      strContains status "Exited" = false →
      strContains status "Up" = true →
      normalize_status state status = "Running") ∧
    (strContains status "292 years ago" = false →
      strContains status "Exited" = false →
      strContains status "Up" = false →
      strContains status "Created" = true →
      normalize_status state status = "Created") ∧
    (strContains status "292 years ago" = false →
      strContains status "Exited" = false →
      strContains status "Up" = false →
      strContains status "Created" = false →
      normalize_status state status = status) ∧
    normalize_status state "Up 3 hours" = "Running" ∧
    normalize_status state "Exited (0) 2 days ago" = "Exited" := by
  refine ⟨?_, ?_, ?_, ?_, ?_, ?_, ?_⟩
  · intro h1
    simp [normalize_status, h1]
  · intro h1 h2
    simp [normalize_status, h1, h2]
  · intro h1 h2 h3
    simp [normalize_status, h1, h2, h3]
  · intro h1 h2 h3 h4
    simp [normalize_status, h1, h2, h3, h4]
  · intro h1 h2 h3 h4
    simp [normalize_status, h1, h2, h3, h4]
  · simp [normalize_status,
      (show strContains "Up 3 hours" "292 years ago" = false from by decide),
      (show strContains "Up 3 hours" "Exited" = false from by decide),
      (show strContains "Up 3 hours" "Up" = true from by decide)]
  · simp [normalize_status,
      (show strContains "Exited (0) 2 days ago" "292 years ago" = false from by decide),
      (show strContains "Exited (0) 2 days ago" "Exited" = true from by decide)]

/-- C6 witness: the amended theorem instantiated on both clock-bug cases
and the plain "Up" case. -/
theorem C6_witness :
    normalize_status "running" "Up 292 years ago" = "Running" ∧
    normalize_status "exited" "Up 292 years ago" = "Exited" ∧
    normalize_status "zzz" "Up 3 hours" = "Running" := by
  refine ⟨?_, ?_, ?_⟩
  · have h := (C6_amended_first_match "running" "Up 292 years ago").1 (by decide)
    simpa using h
  · have h := (C6_amended_first_match "exited" "Up 292 years ago").1 (by decide)
    simpa using h
  · exact (C6_amended_first_match "zzz" "Up 3 hours").2.2.1
      (by decide) (by decide) (by decide)

/-- C7: the port allocator returns a port in `[start, start + 50]`; every
port of the range strictly below the returned one is unbindable (the search
is incremental and returns the first bindable port); the returned port is
bindable unless it is the `start` fallback, and if no port in range is
bindable the allocator returns `start` itself. Moreover any `handle_webhook`
outcome with status "success" carries `port = find_available_port free 8081
∈ [8081, 8131]` and an `access_url` embedding exactly that port. -/
theorem C7_port_allocation (free : Nat → Bool) (start : Nat)
    (mgr : Manager) (env : DeployEnv) (p : Payload) :
    (start ≤ find_available_port free start ∧
      find_available_port free start ≤ start + 50) ∧
    (∀ q, start ≤ q → q < find_available_port free start → free q = false) ∧
    (free (find_available_port free start) = true ∨
      find_available_port free start = start) ∧
    ((∀ q, start ≤ q → q ≤ start + 50 → free q = false) →
      find_available_port free start = start) ∧
    ((handle_webhook mgr env p).1.status = "success" →
      (handle_webhook mgr env p).1.port =
        some (find_available_port env.free 8081) ∧
      8081 ≤ find_available_port env.free 8081 ∧
      find_available_port env.free 8081 ≤ 8131 ∧
      (handle_webhook mgr env p).1.access_url =
        some ("http://127.0.0.1:" ++
          toString (find_available_port env.free 8081))) := by
  refine ⟨find_available_port_in_range free start,
    find_available_port_below_busy free start,
    find_available_port_free_or_fallback free start, ?_, ?_⟩
  · intro hall
    rcases find_available_port_free_or_fallback free start with hfree | hfb
    · obtain ⟨h1, h2⟩ := find_available_port_in_range free start
      exact absurd hfree (by rw [hall _ h1 h2]; decide)
    · exact hfb
  · intro hs
    obtain ⟨hport, hurl, _, _, _⟩ := handle_webhook_success_fields mgr env p hs
    obtain ⟨h1, h2⟩ := find_available_port_in_range env.free 8081
    exact ⟨hport, h1, by omega, hurl⟩

/-- C7 witness: a concrete successful deployment in which only port 8083 is
bindable; the allocator picks it and the outcome embeds it. -/
theorem C7_witness :
    8081 ≤ find_available_port (fun q => q == 8083) 8081 ∧
    find_available_port (fun q => q == 8083) 8081 ≤ 8081 + 50 ∧
    (handle_webhook ⟨true, CmdResult.ok "cid", false, ""⟩
        ⟨true, [], fun q => q == 8083⟩ (Payload.dict none true 0)).1.port =
      some (find_available_port (fun q => q == 8083) 8081) ∧
    (handle_webhook ⟨true, CmdResult.ok "cid", false, ""⟩
        ⟨true, [], fun q => q == 8083⟩ (Payload.dict none true 0)).1.access_url =
      some ("http://127.0.0.1:" ++
        toString (find_available_port (fun q => q == 8083) 8081)) := by
  have h := C7_port_allocation (fun q => q == 8083) 8081
    ⟨true, CmdResult.ok "cid", false, ""⟩
    ⟨true, [], fun q => q == 8083⟩ (Payload.dict none true 0)
  have hs := h.2.2.2.2 (by decide)
  exact ⟨h.1.1, h.1.2, hs.1, hs.2.2.2⟩

/-- C8: `image_name` and `container_name` are pure functions of the derived
repository name — any two deployments (arbitrary managers and
environments) whose payloads derive the same repository slug produce
byte-identical `image_name = "autopod-" ++ slug` and
`container_name = image_name ++ "-container"` in their success outcomes. -/
theorem C8_deterministic_names (p q : Payload) (n : String)
    (hp : derived_repo_name p = some n) (hq : derived_repo_name q = some n)
    (mgr1 mgr2 : Manager) (env1 env2 : DeployEnv)
    (h1 : (handle_webhook mgr1 env1 p).1.status = "success")
    (h2 : (handle_webhook mgr2 env2 q).1.status = "success") :
    (handle_webhook mgr1 env1 p).1.image_name =
      some ("autopod-" ++ slugify n) ∧
    (handle_webhook mgr1 env1 p).1.container_name =
      some ("autopod-" ++ slugify n ++ "-container") ∧
    (handle_webhook mgr1 env1 p).1.image_name =
      (handle_webhook mgr2 env2 q).1.image_name ∧
    (handle_webhook mgr1 env1 p).1.container_name =
      (handle_webhook mgr2 env2 q).1.container_name := by
  obtain ⟨_, _, hi1, hc1, _⟩ := handle_webhook_success_fields mgr1 env1 p h1
  obtain ⟨_, _, hi2, hc2, _⟩ := handle_webhook_success_fields mgr2 env2 q h2
  rw [hp] at hi1 hc1
  rw [hq] at hi2 hc2
  simp only [Option.map_some'] at hi1 hc1 hi2 hc2
  refine ⟨hi1, hc1, ?_, ?_⟩
  · rw [hi1, hi2]
  · rw [hc1, hc2]

/-- C8 witness: two different payloads — one with a `.git` clone URL, one
with a trailing-slash clone URL and a different `name` field — both derive
the slug "widget"; two successful deployments from them carry identical
image and container names. -/
theorem C8_witness :
    derived_repo_name
      (Payload.dict (some ⟨some "https://github.com/acme/widget.git", some "x"⟩) false 0) =
      some "widget" ∧
    derived_repo_name
      (Payload.dict (some ⟨some "https://github.com/other/widget/", some "widget"⟩) false 1) =
      some "widget" ∧
    (handle_webhook ⟨true, CmdResult.ok "cid", false, ""⟩
        ⟨true, ["Dockerfile"], fun _ => true⟩
        (Payload.dict (some ⟨some "https://github.com/acme/widget.git", some "x"⟩) false 0)).1.image_name =
      some ("autopod-" ++ slugify "widget") ∧
    (handle_webhook ⟨true, CmdResult.ok "cid", false, ""⟩
        ⟨true, ["Dockerfile"], fun _ => true⟩
        (Payload.dict (some ⟨some "https://github.com/acme/widget.git", some "x"⟩) false 0)).1.image_name =
      (handle_webhook ⟨true, CmdResult.ok "cid2", false, ""⟩
          ⟨true, [], fun _ => true⟩
          (Payload.dict (some ⟨some "https://github.com/other/widget/", some "widget"⟩) false 1)).1.image_name ∧
    (handle_webhook ⟨true, CmdResult.ok "cid", false, ""⟩
        ⟨true, ["Dockerfile"], fun _ => true⟩
        (Payload.dict (some ⟨some "https://github.com/acme/widget.git", some "x"⟩) false 0)).1.container_name =
      (handle_webhook ⟨true, CmdResult.ok "cid2", false, ""⟩
          ⟨true, [], fun _ => true⟩
          (Payload.dict (some ⟨some "https://github.com/other/widget/", some "widget"⟩) false 1)).1.container_name := by
  have h := C8_deterministic_names
    (Payload.dict (some ⟨some "https://github.com/acme/widget.git", some "x"⟩) false 0)
    (Payload.dict (some ⟨some "https://github.com/other/widget/", some "widget"⟩) false 1)
    "widget" (by decide) (by decide)
    ⟨true, CmdResult.ok "cid", false, ""⟩ ⟨true, CmdResult.ok "cid2", false, ""⟩
    ⟨true, ["Dockerfile"], fun _ => true⟩ ⟨true, [], fun _ => true⟩
    (by decide) (by decide)
  exact ⟨by decide, by decide, h.1, h.2.2.1, h.2.2.2⟩

/-- C9: after source materialization the working directory always contains
at least one recognized build descriptor (Containerfile or Dockerfile);
whenever the clone did not happen (not attempted, or attempted and failed)
or the cloned tree lacks both filenames, the demo project is synthesized,
and it writes both filenames. -/
theorem C9_build_descriptor_present (cloneOk : Bool)
    (clonedFiles : List String) (repo_url : Option String) :
    ("Containerfile" ∈ (materialize cloneOk clonedFiles repo_url).1 ∨
      "Dockerfile" ∈ (materialize cloneOk clonedFiles repo_url).1) ∧
    ((clone_attempted repo_url = false ∨ cloneOk = false ∨
        ("Dockerfile" ∉ clonedFiles ∧ "Containerfile" ∉ clonedFiles)) →
      (materialize cloneOk clonedFiles repo_url).2 = true ∧
      "Containerfile" ∈ (materialize cloneOk clonedFiles repo_url).1 ∧
      "Dockerfile" ∈ (materialize cloneOk clonedFiles repo_url).1) := by
  unfold materialize
  split_ifs with h1 h2 h3
  · refine ⟨Or.inl (by simp [demo_files]), fun _ => ⟨rfl, ?_, ?_⟩⟩
    · simp [demo_files]
    · simp [demo_files]
  · refine ⟨Or.inl (by simp [demo_files]), fun _ => ⟨rfl, ?_, ?_⟩⟩
    · simp [demo_files]
    · simp [demo_files]
  · constructor
    · rcases not_and_or.mp h3 with hd | hc
      · exact Or.inr (not_not.mp hd)
      · exact Or.inl (not_not.mp hc)
    · intro hcase
      rcases hcase with h | h | h
      · rw [h1] at h
        exact absurd h (by decide)
      · rw [h] at h2
        exact absurd rfl h2
      · exact absurd ⟨h.1, h.2⟩ h3
  · refine ⟨Or.inl (by simp [demo_files]), fun _ => ⟨rfl, ?_, ?_⟩⟩
    · simp [demo_files]
    · simp [demo_files]

/-- C9 witness: a GitHub-URL deployment whose clone fails — the demo
project is synthesized and both descriptor filenames are present. -/
theorem C9_witness :
    clone_attempted (some "https://github.com/a/b") = true ∧
    (materialize false ["README.md"] (some "https://github.com/a/b")).2 = true ∧
    "Containerfile" ∈ (materialize false ["README.md"] (some "https://github.com/a/b")).1 ∧
    "Dockerfile" ∈ (materialize false ["README.md"] (some "https://github.com/a/b")).1 := by
  have h := (C9_build_descriptor_present false ["README.md"]
    (some "https://github.com/a/b")).2 (Or.inr (Or.inl rfl))
  exact ⟨by decide, h.1, h.2.1, h.2.2⟩

/-- C10: the module namespace of `database.py` exports no name
`get_db_cursor`, so the `from database import get_db_cursor` executed on
every `sync_with_db` call raises `ImportError` before any row of the
`containers` or `logs` mirror tables is deleted or inserted: for every
listing and every database state, `sync_with_db` returns the state
unchanged together with the import error. -/
theorem C10_sync_always_raises_import_error :
    database_module_names.contains "get_db_cursor" = false ∧
    ∀ (now : String) (getLogs : String → String)
      (listing : List PsContainer) (db : DbState),
      sync_with_db now getLogs listing db = (db, some SyncError.importError) := by
  refine ⟨by decide, ?_⟩
  intro now getLogs listing db
  unfold sync_with_db
  rw [show database_module_names.contains "get_db_cursor" = false from by decide]
  rfl
